import Mathlib

/-
Verification of the fuel-monitor core of this repository.

The embedded code comes from two places:
  * `monitor-fuel.ts` (the monitor cycle, threshold decision logic, and the
    alert-state store `loadState`/`saveState`), and
  * `alert-backends.ts` (the pluggable alert backends and the factory
    `createAlertBackend`).

Modelling conventions:
  * JS numbers used for ranges and thresholds are modelled as `Int`
    (all readings and thresholds in the program are integral miles).
  * Timestamps (`Date` values and ISO strings) are modelled as abstract
    instants of type `Nat`; their content is never inspected by the logic.
  * A fallible async call (`await backend.sendAlert(...)`, which either
    resolves or rejects) is modelled as a function into `Except Unit Unit`;
    a rejection propagates to the enclosing try/catch of the monitor cycle.
  * The file-system state behind `.fuel-alert-state.json` is modelled by
    `StoreContent`: the file is missing, unreadable (read throws), corrupt
    (JSON.parse throws), or holds a parsed record.
-/

namespace FuelMonitor

/-- Alert severity, from the `AlertMessage` interface of `alert-backends.ts`
(`severity: 'low' | 'critical'`). -/
inductive Severity where
  | low
  | critical
deriving DecidableEq, Repr

/-- The persisted alert state, from the `AlertState` interface of
`monitor-fuel.ts`: flags for the 50-mile and 15-mile alerts, the last
observed range, and the last check timestamp. -/
structure AlertState where
  alert50Sent : Bool
  alert15Sent : Bool
  lastRange : Int
  lastCheck : Nat
deriving DecidableEq, Repr

/-- A notification handed to a backend, from the `AlertMessage` interface
of `alert-backends.ts`. -/
structure Notification where
  severity : Severity
  range : Int
  vehicleName : String
  timestamp : Nat
deriving DecidableEq, Repr

/-- The constant `THRESHOLD_LOW = 50` in `monitor-fuel.ts`. -/
def THRESHOLD_LOW : Int := 50

/-- The constant `THRESHOLD_CRITICAL = 15` in `monitor-fuel.ts`. -/
def THRESHOLD_CRITICAL : Int := 15

/-- First step of the monitor logic: clear alerts when fuel is back above
50 miles (`if (currentRange > THRESHOLD_LOW) { state.alert50Sent = false;
state.alert15Sent = false; }`). -/
def applyRecoveryReset (currentRange : Int) (st : AlertState) : AlertState :=
  if THRESHOLD_LOW < currentRange then
    { st with alert50Sent := false, alert15Sent := false }
  else st

/-- Second step: the 15-mile critical threshold check
(`if (currentRange <= THRESHOLD_CRITICAL && !state.alert15Sent)`); on firing
it emits a critical notification and sets `alert15Sent`. -/
def criticalCheck (currentRange : Int) (st : AlertState) : AlertState × List Severity :=
  if currentRange ≤ THRESHOLD_CRITICAL ∧ st.alert15Sent = false then
    ({ st with alert15Sent := true }, [Severity.critical])
  else (st, [])

/-- Third step: the 50-mile low threshold check
(`if (currentRange <= THRESHOLD_LOW && currentRange > THRESHOLD_CRITICAL &&
!state.alert50Sent)`); on firing it emits a low notification and sets
`alert50Sent`. -/
def lowCheck (currentRange : Int) (st : AlertState) : AlertState × List Severity :=
  if currentRange ≤ THRESHOLD_LOW ∧ THRESHOLD_CRITICAL < currentRange ∧
      st.alert50Sent = false then
    ({ st with alert50Sent := true }, [Severity.low])
  else (st, [])

/-- The pure decision step of the monitor cycle (the three `// LOGIC:`
blocks of `monitorFuel` run in source order), mapping a reading and the
prior state to the next state and the list of severities emitted this
cycle. The flags are threaded exactly as in the source; `lastRange` and
`lastCheck` are updated later by the cycle, not here. -/
def decideAlerts (currentRange : Int) (st : AlertState) : AlertState × List Severity :=
  let s1 := applyRecoveryReset currentRange st
  let c := criticalCheck currentRange s1
  let l := lowCheck currentRange c.1
  (l.1, c.2 ++ l.2)

/-- Iterate the decision step over a list of readings, collecting the
severities emitted at each step and the final state. -/
def runReadings : AlertState → List Int → List (List Severity) × AlertState
  | st, [] => ([], st)
  | st, r :: rs =>
      let d := decideAlerts r st
      let rest := runReadings d.1 rs
      (d.2 :: rest.1, rest.2)

/-- The durable content backing `.fuel-alert-state.json` as seen by
`loadState`: the file may be missing (`fs.existsSync` false), unreadable
(`readFileSync` throws), corrupt (`JSON.parse` throws), or hold a record. -/
inductive StoreContent where
  | missing
  | unreadable
  | corrupt
  | record (st : AlertState)
deriving DecidableEq, Repr

/-- The all-false default state returned by `loadState` when no usable
record exists (`alert50Sent: false, alert15Sent: false, lastRange: 0,
lastCheck: new Date().toISOString()`). -/
def defaultState (now : Nat) : AlertState :=
  { alert50Sent := false, alert15Sent := false, lastRange := 0, lastCheck := now }

/-- Function `loadState` from `monitor-fuel.ts`: return the parsed record when the
file exists and parses; on a missing file, a read error or a parse error
the error is logged and the all-false default is returned. -/
def loadState (now : Nat) : StoreContent → AlertState
  | StoreContent.missing => defaultState now
  | StoreContent.unreadable => defaultState now
  | StoreContent.corrupt => defaultState now
  | StoreContent.record st => st

/-- JS `String.prototype.toLowerCase` restricted to the ASCII strings the
program compares against. -/
def jsToLowerCase (s : String) : String := String.mk (s.data.map Char.toLower)

/-- The line `const TEST_ALERT = process.env.TEST_ALERT?.toLowerCase()` together with
the truthiness test `if (TEST_ALERT)` and the choice
`TEST_ALERT === 'critical' ? 'critical' : 'low'` in `monitorFuel`: the
forced severity, if the override is active. -/
def testModeSeverity (testAlert : Option String) : Option Severity :=
  match testAlert with
  | none => none
  | some s =>
      let t := jsToLowerCase s
      if t = "" then none
      else if t = "critical" then some Severity.critical
      else some Severity.low

/-- Build the `AlertMessage` object passed to `alertBackend.sendAlert`. -/
def mkNotif (sev : Severity) (range : Int) (name : String) (now : Nat) : Notification :=
  { severity := sev, range := range, vehicleName := name, timestamp := now }

/-- The test-mode notification of `monitorFuel`
(`testRange = testSeverity === 'critical' ? 10 : 45`). -/
def testNotif (sev : Severity) (name : String) (now : Nat) : Notification :=
  mkNotif sev (if sev = Severity.critical then 10 else 45) name now

/-- Observable outcome of one run of `monitorFuel` past the status fetch:
the process exit code, the list of notifications handed to
`alertBackend.sendAlert` (in order), and the state passed to `saveState`
when that call is reached (`saveState` itself swallows write errors). -/
structure CycleOutcome where
  exitCode : Nat
  dispatched : List Notification
  savedState : Option AlertState
deriving DecidableEq, Repr

/-- Tail of the monitor cycle after the threshold checks: update
`state.lastRange` and `state.lastCheck`, call `saveState`, print the
status summary and `process.exit(0)`. -/
def monitorSave (now : Nat) (currentRange : Int) (st : AlertState)
    (sent : List Notification) : CycleOutcome :=
  { exitCode := 0, dispatched := sent,
    savedState := some { st with lastRange := currentRange, lastCheck := now } }

/-- The 50-mile low-threshold block of `monitorFuel`: on firing,
`await alertBackend.sendAlert(...)`; a rejection propagates to the
enclosing catch, which logs the error and calls `process.exit(1)` (so the
flag assignment and `saveState` are never reached); on success
`state.alert50Sent = true` and the cycle proceeds to save. -/
def monitorLowStep (send : Notification → Except Unit Unit) (name : String)
    (now : Nat) (currentRange : Int) (st : AlertState)
    (sent : List Notification) : CycleOutcome :=
  if currentRange ≤ THRESHOLD_LOW ∧ THRESHOLD_CRITICAL < currentRange ∧
      st.alert50Sent = false then
    let n := mkNotif Severity.low currentRange name now
    match send n with
    | Except.error _ => { exitCode := 1, dispatched := sent ++ [n], savedState := none }
    | Except.ok _ =>
        monitorSave now currentRange { st with alert50Sent := true } (sent ++ [n])
  else monitorSave now currentRange st sent

/-- The 15-mile critical-threshold block of `monitorFuel`: on firing,
`await alertBackend.sendAlert(...)`; a rejection propagates to the
enclosing catch (`process.exit(1)`, no flag update, no save); on success
`state.alert15Sent = true` and the cycle proceeds to the low check. -/
def monitorCriticalStep (send : Notification → Except Unit Unit) (name : String)
    (now : Nat) (currentRange : Int) (st : AlertState) : CycleOutcome :=
  if currentRange ≤ THRESHOLD_CRITICAL ∧ st.alert15Sent = false then
    let n := mkNotif Severity.critical currentRange name now
    match send n with
    | Except.error _ => { exitCode := 1, dispatched := [n], savedState := none }
    | Except.ok _ =>
        monitorLowStep send name now currentRange { st with alert15Sent := true } [n]
  else monitorLowStep send name now currentRange st []

/-- One run of `monitorFuel` from the point where the current range is in
hand: load the state, run the test-mode override if active (send the
synthesized alert and `process.exit(0)` without touching state — a
rejected send there hits the same catch and exits 1), otherwise run the
recovery reset and the two threshold checks, then save and exit 0. -/
def monitorCycle (send : Notification → Except Unit Unit) (testAlert : Option String)
    (name : String) (currentRange : Int) (store : StoreContent) (now : Nat) :
    CycleOutcome :=
  let st := loadState now store
  match testModeSeverity testAlert with
  | some sev =>
      let n := testNotif sev name now
      match send n with
      | Except.ok _ => { exitCode := 0, dispatched := [n], savedState := none }
      | Except.error _ => { exitCode := 1, dispatched := [n], savedState := none }
  | none =>
      monitorCriticalStep send name now currentRange (applyRecoveryReset currentRange st)

/-- Per-destination report of one `sendAlert` call of a direct-message
backend: which destinations were attempted, and which of those attempts
resolved or rejected. -/
structure DispatchReport where
  attempted : List String
  succeeded : List String
  failed : List String
deriving DecidableEq, Repr

/-- The fan-out pattern shared verbatim by `TwilioTrialSMSAlertBackend`,
`TwilioSMSAlertBackend` and `TmobileEmailAlertBackend` in
`alert-backends.ts`: `const promises = list.map(async d => ...);
await Promise.all(promises)`. All per-destination attempts are launched by
the `map` before anything is awaited, so every attempt is made; the
per-destination outcome is given by `attempt`; `Promise.all` (and hence
`sendAlert`) rejects iff some attempt rejects. -/
def dispatchAll (attempt : String → Bool) (dests : List String) : DispatchReport :=
  { attempted := dests
    succeeded := dests.filter (fun d => attempt d)
    failed := dests.filter (fun d => !attempt d) }

/-- A send resolves (`sendAlert` succeeds) iff no per-destination attempt rejected. -/
def sendSucceeds (r : DispatchReport) : Bool := r.failed.isEmpty

/-- Method `TwilioSMSAlertBackend.sendAlert` (and identically
`TwilioTrialSMSAlertBackend.sendAlert`): fan out one SMS per configured
phone number, with the external Twilio call outcome given by `attempt`. -/
def twilioSendAlert (attempt : String → Bool) (toPhoneNumbers : List String) :
    DispatchReport :=
  dispatchAll attempt toPhoneNumbers

/-- The expression `phoneNumber.replace(/\D/g, '') + '@tmomail.net'` in
`TmobileEmailAlertBackend.sendAlert`. -/
def tmobileToAddress (phoneNumber : String) : String :=
  String.mk (phoneNumber.toList.filter Char.isDigit) ++ "@tmomail.net"

/-- Method `TmobileEmailAlertBackend.sendAlert`: fan out one email per configured
phone number, each addressed to the T-Mobile gateway address derived from
the number; the external SMTP call outcome is given by `attempt`. -/
def tmobileSendAlert (attempt : String → Bool) (phoneNumbers : List String) :
    DispatchReport :=
  dispatchAll (fun p => attempt (tmobileToAddress p)) phoneNumbers

/-- The environment variables read by `createAlertBackend`; a variable that
is unset is `none`. -/
structure Env where
  ALERT_BACKEND : Option String
  TWILIO_TO_PHONE : Option String
  TWILIO_FROM_PHONE : Option String
  TWILIO_ACCOUNT_SID : Option String
  TWILIO_AUTH_TOKEN : Option String
  TMOBILE_PHONES : Option String
  EMAIL_SMTP_HOST : Option String
  EMAIL_SMTP_PORT : Option String
  EMAIL_SMTP_USER : Option String
  EMAIL_SMTP_PASSWORD : Option String
  EMAIL_FROM : Option String
deriving DecidableEq, Repr

/-- An environment with every variable unset. -/
def emptyEnv : Env :=
  { ALERT_BACKEND := none, TWILIO_TO_PHONE := none, TWILIO_FROM_PHONE := none,
    TWILIO_ACCOUNT_SID := none, TWILIO_AUTH_TOKEN := none, TMOBILE_PHONES := none,
    EMAIL_SMTP_HOST := none, EMAIL_SMTP_PORT := none, EMAIL_SMTP_USER := none,
    EMAIL_SMTP_PASSWORD := none, EMAIL_FROM := none }

/-- JS truthiness of an optional env string: `undefined` and the empty
string are falsy; `jsPresent` keeps only truthy values. -/
def jsPresent : Option String → Option String
  | none => none
  | some s => if s = "" then none else some s

/-- JS `parseInt(s, 10)`: skip surrounding whitespace, take an optional
sign and the leading run of decimal digits; no digits yields NaN,
modelled as `none`. -/
def jsParseInt (s : String) : Option Int :=
  let t := s.trim
  let (sign, digits) :=
    if t.startsWith "-" then ((-1 : Int), t.drop 1)
    else if t.startsWith "+" then ((1 : Int), t.drop 1)
    else ((1 : Int), t)
  let ds := digits.takeWhile Char.isDigit
  (ds.toNat?).map (fun n => sign * (n : Int))

/-- The expression `toPhone.split(',').map(num => num.trim()).filter(num => num.length > 0)`
in `createAlertBackend`. -/
def splitPhones (s : String) : List String :=
  ((s.splitOn ",").map String.trim).filter (fun num => num.length > 0)

/-- The configured backend produced by `createAlertBackend`, carrying the
construction arguments of the chosen class. -/
inductive AlertBackendModel where
  | consoleBackend
  | twilioTrial (toPhoneNumbers : List String) (fromPhone : String)
      (accountSid : String) (authToken : String)
  | twilioPaid (toPhoneNumbers : List String) (fromPhone : String)
      (accountSid : String) (authToken : String)
  | tmobileEmail (phoneNumbers : List String) (smtpHost : String)
      (smtpPort : Option Int) (smtpUser : String) (smtpPassword : String)
      (fromEmail : String)
deriving DecidableEq, Repr

/-- Function `createAlertBackend` from `alert-backends.ts`: select the backend from
`process.env.ALERT_BACKEND || 'console'`, lower-cased. The JS `switch` with
its case groups and `default` is written as the equivalent chain of
equality tests; a thrown configuration error is `Except.error`. -/
def createAlertBackend (env : Env) : Except String AlertBackendModel :=
  let backendType := match env.ALERT_BACKEND with
    | none => "console"
    | some s => if s = "" then "console" else s
  let t := jsToLowerCase backendType
  if t = "twilio-trial" then
    match jsPresent env.TWILIO_TO_PHONE, jsPresent env.TWILIO_FROM_PHONE,
        jsPresent env.TWILIO_ACCOUNT_SID, jsPresent env.TWILIO_AUTH_TOKEN with
    | some toPhone, some fromPhone, some sid, some token =>
        let nums := splitPhones toPhone
        if nums = [] then
          Except.error "TWILIO_TO_PHONE must contain at least one phone number"
        else Except.ok (AlertBackendModel.twilioTrial nums fromPhone sid token)
    | _, _, _, _ => Except.error "Missing Twilio configuration"
  else if t = "sms" ∨ t = "twilio" ∨ t = "twilio-paid" then
    match jsPresent env.TWILIO_TO_PHONE, jsPresent env.TWILIO_FROM_PHONE,
        jsPresent env.TWILIO_ACCOUNT_SID, jsPresent env.TWILIO_AUTH_TOKEN with
    | some toPhone, some fromPhone, some sid, some token =>
        let nums := splitPhones toPhone
        if nums = [] then
          Except.error "TWILIO_TO_PHONE must contain at least one phone number"
        else Except.ok (AlertBackendModel.twilioPaid nums fromPhone sid token)
    | _, _, _, _ => Except.error "Missing Twilio configuration"
  else if t = "tmobile-email" ∨ t = "email" then
    match jsPresent env.TMOBILE_PHONES, jsPresent env.EMAIL_SMTP_HOST,
        jsPresent env.EMAIL_SMTP_PORT, jsPresent env.EMAIL_SMTP_USER,
        jsPresent env.EMAIL_SMTP_PASSWORD, jsPresent env.EMAIL_FROM with
    | some phones, some host, some port, some user, some pass, some fromEmail =>
        let nums := splitPhones phones
        if nums = [] then
          Except.error "TMOBILE_PHONES must contain at least one phone number"
        else Except.ok (AlertBackendModel.tmobileEmail nums host
          (jsParseInt port) user pass fromEmail)
    | _, _, _, _, _, _ => Except.error "Missing email configuration"
  else
    Except.ok AlertBackendModel.consoleBackend

/-- A delivery channel that rejects every send (used to exercise the
delivery-failure paths at concrete inputs). -/
def failSend : Notification → Except Unit Unit := fun _ => Except.error ()

/-- A delivery channel that resolves every send. -/
def okSend : Notification → Except Unit Unit := fun _ => Except.ok ()

/-- A per-destination dispatch outcome in which exactly the destination
`"+15550001111"` fails (used for the two-destination scenario). -/
def exampleAttempt : String → Bool := fun d => d ≠ "+15550001111"

/-- Claim C2: for every reading strictly greater than the low threshold and
every prior alert state, the decision step returns a state with both alert
flags false and emits no notification. -/
theorem recovery_clears_flags (r : Int) (st : AlertState)
    (h : THRESHOLD_LOW < r) :
    (decideAlerts r st).1.alert50Sent = false ∧
    (decideAlerts r st).1.alert15Sent = false ∧
    (decideAlerts r st).2 = [] := by
  simp only [decideAlerts, criticalCheck, lowCheck, applyRecoveryReset,
    THRESHOLD_LOW, THRESHOLD_CRITICAL] at *
  split_ifs <;> simp_all <;> omega

/-- Witness for C2 at reading 80 from a state with both flags set. -/
theorem recovery_clears_flags_witness :
    THRESHOLD_LOW < 80 ∧
    ((decideAlerts 80 ⟨true, true, 20, 0⟩).1.alert50Sent = false ∧
      (decideAlerts 80 ⟨true, true, 20, 0⟩).1.alert15Sent = false ∧
      (decideAlerts 80 ⟨true, true, 20, 0⟩).2 = []) :=
  ⟨by decide, recovery_clears_flags 80 ⟨true, true, 20, 0⟩ (by decide)⟩

/-- Claim C3: for every reading at or below the critical threshold whose
post-reset `alert15Sent` flag is false, the decision step emits exactly the
critical notification and sets `alert15Sent`; moreover, after a reading of
200 (above low = 50) from any state, a reading of 10 (at or below
critical = 15) emits exactly the critical notification — a prior
`alert50Sent = true` never suppresses it. -/
theorem critical_alert_fires (r : Int) (st : AlertState)
    (hr : r ≤ THRESHOLD_CRITICAL)
    (hflag : (applyRecoveryReset r st).alert15Sent = false) :
    ((decideAlerts r st).2 = [Severity.critical] ∧
      (decideAlerts r st).1.alert15Sent = true) ∧
    (∀ st0 : AlertState,
      (decideAlerts 10 (decideAlerts 200 st0).1).2 = [Severity.critical]) := by
  constructor
  · simp only [decideAlerts, criticalCheck, lowCheck, applyRecoveryReset,
      THRESHOLD_LOW, THRESHOLD_CRITICAL] at *
    split_ifs <;> simp_all <;> omega
  · intro st0
    rfl

/-- Witness for C3 at reading 10 from a state with `alert50Sent = true`. -/
theorem critical_alert_fires_witness :
    (10 : Int) ≤ THRESHOLD_CRITICAL ∧
    ((decideAlerts 10 ⟨true, false, 40, 0⟩).2 = [Severity.critical] ∧
      (decideAlerts 10 ⟨true, false, 40, 0⟩).1.alert15Sent = true) :=
  ⟨by decide, (critical_alert_fires 10 ⟨true, false, 40, 0⟩ (by decide) (by decide)).1⟩

/-- Claim C4: for every reading strictly between the critical threshold and
the low threshold (inclusive on the low end) with prior `alert50Sent`
false, the decision step emits exactly the low notification and sets
`alert50Sent`; every cycle emits at most one notification (the critical
and low branches are mutually exclusive); the boundary reading 50 alerts
as low while 51 triggers the recovery reset. -/
theorem low_alert_fires (r : Int) (st : AlertState)
    (h1 : THRESHOLD_CRITICAL < r) (h2 : r ≤ THRESHOLD_LOW)
    (h3 : st.alert50Sent = false) :
    ((decideAlerts r st).2 = [Severity.low] ∧
      (decideAlerts r st).1.alert50Sent = true) ∧
    (∀ (r2 : Int) (st2 : AlertState), ((decideAlerts r2 st2).2).length ≤ 1) ∧
    (∀ st2 : AlertState, st2.alert50Sent = false →
      (decideAlerts THRESHOLD_LOW st2).2 = [Severity.low]) ∧
    (∀ st2 : AlertState,
      (decideAlerts (THRESHOLD_LOW + 1) st2).1.alert50Sent = false ∧
      (decideAlerts (THRESHOLD_LOW + 1) st2).1.alert15Sent = false ∧
      (decideAlerts (THRESHOLD_LOW + 1) st2).2 = []) := by
  refine ⟨?_, ?_, ?_, ?_⟩
  · simp only [decideAlerts, criticalCheck, lowCheck, applyRecoveryReset,
      THRESHOLD_LOW, THRESHOLD_CRITICAL] at *
    split_ifs <;> simp_all <;> omega
  · intro r2 st2
    simp only [decideAlerts, criticalCheck, lowCheck, applyRecoveryReset,
      THRESHOLD_LOW, THRESHOLD_CRITICAL]
    split_ifs <;> simp_all <;> omega
  · intro st2 hflag
    simp only [decideAlerts, criticalCheck, lowCheck, applyRecoveryReset,
      THRESHOLD_LOW, THRESHOLD_CRITICAL] at *
    split_ifs <;> simp_all
  · intro st2
    simp only [decideAlerts, criticalCheck, lowCheck, applyRecoveryReset,
      THRESHOLD_LOW, THRESHOLD_CRITICAL]
    split_ifs <;> simp_all

/-- Witness for C4 at reading 40 from the all-false default state. -/
theorem low_alert_fires_witness :
    (THRESHOLD_CRITICAL < (40 : Int) ∧ (40 : Int) ≤ THRESHOLD_LOW) ∧
    ((decideAlerts 40 (defaultState 0)).2 = [Severity.low] ∧
      (decideAlerts 40 (defaultState 0)).1.alert50Sent = true) :=
  ⟨by decide, (low_alert_fires 40 (defaultState 0)
    (by decide) (by decide) (by decide)).1⟩

/-- Claim C5: running the decision step twice with the same reading,
feeding the first call's next state into the second, never emits on the
second call any severity already emitted on the first. -/
theorem decide_idempotent_severity (r : Int) (st : AlertState) (sev : Severity)
    (h : sev ∈ (decideAlerts r st).2) :
    sev ∉ (decideAlerts r (decideAlerts r st).1).2 := by
  simp only [decideAlerts, criticalCheck, lowCheck, applyRecoveryReset,
    THRESHOLD_LOW, THRESHOLD_CRITICAL] at *
  split_ifs at * <;> simp_all <;> omega

/-- Witness for C5 at reading 40 from the default state, severity low. -/
theorem decide_idempotent_severity_witness :
    Severity.low ∈ (decideAlerts 40 (defaultState 0)).2 ∧
    Severity.low ∉ (decideAlerts 40 (decideAlerts 40 (defaultState 0)).1).2 :=
  ⟨by decide, decide_idempotent_severity 40 (defaultState 0) Severity.low (by decide)⟩

/-- Claim C6: with thresholds 50/15, iterating the decision step from the
all-false default state over readings [80, 40, 40, 10, 60] emits low at
step 2 and critical at step 4, nothing at steps 1, 3 and 5, and leaves
both flags false after step 5. -/
theorem scenarioA_run :
    (runReadings (defaultState 0) [80, 40, 40, 10, 60]).1 =
      [[], [Severity.low], [], [Severity.critical], []] ∧
    (runReadings (defaultState 0) [80, 40, 40, 10, 60]).2.alert50Sent = false ∧
    (runReadings (defaultState 0) [80, 40, 40, 10, 60]).2.alert15Sent = false := by
  decide

/-- Claim C7: `loadState` returns the all-false default whenever the state
file is missing, unreadable or corrupt, and a cycle run with no persisted
state file behaves identically to one run against a freshly written
default record. -/
theorem loadState_default_on_missing_or_corrupt (now : Nat) :
    loadState now StoreContent.missing = defaultState now ∧
    loadState now StoreContent.unreadable = defaultState now ∧
    loadState now StoreContent.corrupt = defaultState now ∧
    (∀ (send : Notification → Except Unit Unit) (testAlert : Option String)
        (name : String) (r : Int),
      monitorCycle send testAlert name r StoreContent.missing now =
        monitorCycle send testAlert name r (StoreContent.record (defaultState now)) now) :=
  ⟨rfl, rfl, rfl, fun _ _ _ _ => rfl⟩

/-- Claim C1 (counterexample): a cycle that emits a critical notification
over an always-failing channel does NOT record the flag, persist state, or
exit successfully — it dispatches the alert, saves nothing, and exits 1
(the rejection reaches the cycle's catch block). -/
theorem monitor_delivery_failure_counterexample :
    (monitorCycle failSend none "car" 10 (StoreContent.record (defaultState 0)) 0).dispatched =
      [mkNotif Severity.critical 10 "car" 0] ∧
    (monitorCycle failSend none "car" 10 (StoreContent.record (defaultState 0)) 0).savedState =
      none ∧
    (monitorCycle failSend none "car" 10 (StoreContent.record (defaultState 0)) 0).exitCode ≠ 0 := by
  decide

/-- Claim C1 (amended): when the monitor cycle attempts any delivery over a
channel whose sends all fail, the rejection propagates to the cycle's
top-level catch: the failure is logged there, but the alert-sent flag is
never assigned, `saveState` is never reached, and the process exits 1. -/
theorem monitor_delivery_failure_aborts (send : Notification → Except Unit Unit)
    (testAlert : Option String) (name : String) (r : Int) (store : StoreContent)
    (now : Nat)
    (htest : testModeSeverity testAlert = none)
    (hfail : ∀ n, send n = Except.error ())
    (hdisp : (monitorCycle send testAlert name r store now).dispatched ≠ []) :
    (monitorCycle send testAlert name r store now).exitCode = 1 ∧
    (monitorCycle send testAlert name r store now).savedState = none := by
  simp only [monitorCycle, htest] at hdisp ⊢
  simp only [monitorCriticalStep, monitorLowStep, monitorSave, hfail] at hdisp ⊢
  split_ifs at hdisp ⊢ <;> simp_all

/-- Witness for the amended C1 with a failing channel at reading 10. -/
theorem monitor_delivery_failure_aborts_witness :
    (monitorCycle failSend none "car" 10 StoreContent.missing 0).dispatched ≠ [] ∧
    ((monitorCycle failSend none "car" 10 StoreContent.missing 0).exitCode = 1 ∧
      (monitorCycle failSend none "car" 10 StoreContent.missing 0).savedState = none) :=
  ⟨by decide, monitor_delivery_failure_aborts failSend none "car" 10
    StoreContent.missing 0 rfl (fun _ => rfl) (by decide)⟩

/-- Claim C8: for every direct-message backend, `sendAlert` succeeds iff
every per-destination attempt succeeds; the attempt list always equals the
full destination list (no short-circuit: every sibling attempt is made,
and each succeeding destination receives the message even when another
destination fails); concretely, with two destinations of which one fails,
the send reports failure yet the other destination still receives it. -/
theorem sendAlert_fanout (attempt : String → Bool) (dests : List String)
    (_hne : dests ≠ []) :
    (sendSucceeds (twilioSendAlert attempt dests) = true ↔
      ∀ d ∈ dests, attempt d = true) ∧
    (twilioSendAlert attempt dests).attempted = dests ∧
    (∀ d ∈ dests, attempt d = true → d ∈ (twilioSendAlert attempt dests).succeeded) ∧
    (sendSucceeds (tmobileSendAlert attempt dests) = true ↔
      ∀ p ∈ dests, attempt (tmobileToAddress p) = true) ∧
    (tmobileSendAlert attempt dests).attempted = dests ∧
    (∀ p ∈ dests, attempt (tmobileToAddress p) = true →
      p ∈ (tmobileSendAlert attempt dests).succeeded) ∧
    (sendSucceeds (twilioSendAlert exampleAttempt ["+15550001111", "+15550002222"]) = false ∧
      "+15550002222" ∈ (twilioSendAlert exampleAttempt
        ["+15550001111", "+15550002222"]).succeeded) := by
  refine ⟨?_, rfl, ?_, ?_, rfl, ?_, by decide⟩
  · simp [sendSucceeds, twilioSendAlert, dispatchAll, List.isEmpty_iff,
      List.filter_eq_nil_iff]
  · intro d hd ha
    simp [twilioSendAlert, dispatchAll, List.mem_filter, hd, ha]
  · simp [sendSucceeds, tmobileSendAlert, dispatchAll, List.isEmpty_iff,
      List.filter_eq_nil_iff]
  · intro p hp ha
    simp [tmobileSendAlert, dispatchAll, List.mem_filter, hp, ha]

/-- Witness for C8 on the two-destination list where one dispatch fails. -/
theorem sendAlert_fanout_witness :
    (["+15550001111", "+15550002222"] : List String) ≠ [] ∧
    (sendSucceeds (twilioSendAlert exampleAttempt ["+15550001111", "+15550002222"]) = false ∧
      "+15550002222" ∈ (twilioSendAlert exampleAttempt
        ["+15550001111", "+15550002222"]).succeeded) :=
  ⟨by decide, (sendAlert_fanout exampleAttempt ["+15550001111", "+15550002222"]
    (by decide)).2.2.2.2.2.2⟩

/-- Claim C9 (counterexample): a forced-severity test cycle over a failing
channel exits 1, not successfully, so the claim's "terminates successfully"
does not hold for every test-override cycle. -/
theorem test_mode_failure_counterexample :
    testModeSeverity (some "critical") = some Severity.critical ∧
    (monitorCycle failSend (some "critical") "car" 300 StoreContent.missing 0).exitCode ≠ 0 := by
  decide

/-- Claim C9 (amended): whenever the forced-severity override is supplied,
the cycle dispatches exactly the synthesized notification of that severity
(range 10 for critical, 45 for low), never calls `saveState`, and its
outcome is independent of the reading and of the persisted state (the
Alert Engine is bypassed); it exits 0 when the dispatch succeeds and 1
when the dispatch fails. -/
theorem test_mode_bypasses_engine (send : Notification → Except Unit Unit)
    (testAlert : Option String) (name : String) (r : Int) (store : StoreContent)
    (now : Nat) (sev : Severity)
    (h : testModeSeverity testAlert = some sev) :
    (monitorCycle send testAlert name r store now).savedState = none ∧
    (monitorCycle send testAlert name r store now).dispatched =
      [testNotif sev name now] ∧
    (∀ (r2 : Int) (store2 : StoreContent),
      monitorCycle send testAlert name r2 store2 now =
        monitorCycle send testAlert name r store now) ∧
    (send (testNotif sev name now) = Except.ok () →
      (monitorCycle send testAlert name r store now).exitCode = 0) ∧
    (send (testNotif sev name now) = Except.error () →
      (monitorCycle send testAlert name r store now).exitCode = 1) := by
  simp only [monitorCycle, h]
  cases hs : send (testNotif sev name now) <;> simp [hs]

/-- Witness for the amended C9: a critical test-mode cycle over a
succeeding channel. -/
theorem test_mode_bypasses_engine_witness :
    testModeSeverity (some "critical") = some Severity.critical ∧
    (monitorCycle okSend (some "critical") "car" 300 StoreContent.missing 0).savedState = none ∧
    (monitorCycle okSend (some "critical") "car" 300 StoreContent.missing 0).exitCode = 0 :=
  ⟨by decide,
    (test_mode_bypasses_engine okSend (some "critical") "car" 300
      StoreContent.missing 0 Severity.critical (by decide)).1,
    (test_mode_bypasses_engine okSend (some "critical") "car" 300
      StoreContent.missing 0 Severity.critical (by decide)).2.2.2.1 rfl⟩

/-- Claim C10: every channel selector whose lower-cased value is outside
the recognized case set falls through to the `default` case and yields the
console backend with no configuration error; in particular `sns` and
`cloud-sns` silently degrade to console logging. -/
theorem backend_default_console (env : Env) (s : String)
    (h1 : env.ALERT_BACKEND = some s) (h2 : s ≠ "")
    (h3 : jsToLowerCase s ∉
      (["twilio-trial", "sms", "twilio", "twilio-paid", "tmobile-email", "email",
        "console"] : List String)) :
    createAlertBackend env = Except.ok AlertBackendModel.consoleBackend ∧
    createAlertBackend { emptyEnv with ALERT_BACKEND := some "sns" } =
      Except.ok AlertBackendModel.consoleBackend ∧
    createAlertBackend { emptyEnv with ALERT_BACKEND := some "cloud-sns" } =
      Except.ok AlertBackendModel.consoleBackend := by
  refine ⟨?_, rfl, rfl⟩
  simp only [List.mem_cons, List.not_mem_nil, or_false, not_or] at h3
  obtain ⟨n1, n2, n3, n4, n5, n6, n7⟩ := h3
  simp only [createAlertBackend, h1, if_neg h2]
  rw [if_neg n1, if_neg (by simp [n2, n3, n4]), if_neg (by simp [n5, n6])]

/-- Witness for C10 with the selector `sns`. -/
theorem backend_default_console_witness :
    jsToLowerCase "sns" ∉
      (["twilio-trial", "sms", "twilio", "twilio-paid", "tmobile-email", "email",
        "console"] : List String) ∧
    createAlertBackend { emptyEnv with ALERT_BACKEND := some "sns" } =
      Except.ok AlertBackendModel.consoleBackend :=
  ⟨by decide, (backend_default_console { emptyEnv with ALERT_BACKEND := some "sns" }
    "sns" rfl (by decide) (by decide)).1⟩

end FuelMonitor
